import Mathlib

/-!
Verification of the minidl crate (src/lib.rs): a minimal binding over the
OS dynamic-library loader.  The OS loader is modelled as an abstract
environment of pure functions (the result of each platform call on a given
argument), and each crate function is embedded as a Lean function that
returns its result together with the trace of platform calls it made.
Machine pointers are modelled as natural numbers, with 0 playing the role
of the null pointer.
-/

/-- Raw machine address; 0 models the null pointer. -/
abbrev Addr := Nat

/-- The values of the kind field of a Rust std io Error used by the crate. -/
inductive ErrorKind where
  | notFound
  | invalidInput
  | other
  deriving DecidableEq, Repr

/-- A Rust std io Error: a kind, a message, and the raw OS code when the
error came from last os error (errors built by io Error new carry none). -/
structure IOError where
  kind : ErrorKind
  msg : String
  rawOsError : Option Int
  deriving DecidableEq, Repr

/-- The crate type Library, wrapping a non-null handle (src/lib.rs line 19:
a NonNull pointer). -/
structure Library where
  handle : Addr
  nonNull : handle ≠ 0

instance : DecidableEq Library :=
  fun a b =>
    if h : a.handle = b.handle then
      isTrue (by cases a; cases b; cases h; rfl)
    else
      isFalse (fun hh => h (congrArg Library.handle hh))

instance {ε α : Type} [DecidableEq ε] [DecidableEq α] : DecidableEq (Except ε α) :=
  fun a b =>
    match a, b with
    | Except.error e, Except.error f =>
      if h : e = f then isTrue (by rw [h]) else isFalse (fun hh => h (Except.error.injEq e f ▸ hh))
    | Except.ok x, Except.ok y =>
      if h : x = y then isTrue (by rw [h]) else isFalse (fun hh => h (Except.ok.injEq x y ▸ hh))
    | Except.error _, Except.ok _ => isFalse (fun hh => Except.noConfusion hh)
    | Except.ok _, Except.error _ => isFalse (fun hh => Except.noConfusion hh)

/-- Substring containment, used to state that an error message mentions the
attempted path, symbol or ordinal. -/
def containsStr (hay sub : String) : Prop := sub.data <:+: hay.data

instance (hay sub : String) : Decidable (containsStr hay sub) :=
  inferInstanceAs (Decidable (sub.data <:+: hay.data))

/-- The constant ERROR_BAD_EXE_FORMAT (src/lib.rs line 352). -/
def ERROR_BAD_EXE_FORMAT : Int := 0xC1

/-- The constant ERROR_MOD_NOT_FOUND (src/lib.rs line 353). -/
def ERROR_MOD_NOT_FOUND : Int := 0x7E

/-- A Windows path as the crate sees it: its UTF-16 code units (what
encode_wide yields, arbitrary u16 values, possibly zero) together with its
Display rendering (what path.display() interpolates into messages). -/
structure WinPath where
  units : List Nat
  display : String
  deriving DecidableEq, Repr

/-- The ambient Windows loader: the handle LoadLibraryW returns for a given
null-terminated buffer, and the io Error that last os error would report
after a failed call. -/
structure WindowsEnv where
  loadLibraryW : List Nat → Addr
  lastOsError : IOError

/-- Platform calls a Windows load can make. -/
inductive WinEvent where
  | loadLibraryWCall (filename : List Nat)
  deriving DecidableEq, Repr

/-- The string this from src/lib.rs line 56: the bit-width the crate prints
for the running process, computed from the compile-time test
cfg target_arch x86_64. -/
def thisBits (targetArchX86_64 : Bool) : String :=
  if targetArchX86_64 then "64" else "32"

/-- The string that from src/lib.rs line 57: the bit-width the crate prints
for the DLL it suspects was wrongly loaded. -/
def thatBits (targetArchX86_64 : Bool) : String :=
  if targetArchX86_64 then "32" else "64"

/-- Modelled from the spec: the process bit-width computed from the host
build target pointer width, as the spec words require (the source instead
tests whether the target architecture is x86_64). -/
def bitsFromPointerWidth (targetPointerWidth : Nat) : String :=
  if targetPointerWidth = 64 then "64" else "32"

/-- The Windows branch of Library::load (src/lib.rs lines 30-68): encode the
path as a null-terminated wide string, call LoadLibraryW, wrap a non-null
handle, and normalize a null handle through last os error.  Returns the
result together with the trace of loader calls made. -/
def Library.loadWindows (env : WindowsEnv) (targetArchX86_64 : Bool) (path : WinPath) :
    Except IOError Library × List WinEvent :=
  let filename := path.units ++ [0]
  let handle := env.loadLibraryW filename
  let events := [WinEvent.loadLibraryWCall filename]
  if h : handle = 0 then
    let err := env.lastOsError
    if err.rawOsError = some ERROR_BAD_EXE_FORMAT then
      (Except.error ⟨ErrorKind.other,
        "Unable to load " ++ path.display ++ ": ERROR_BAD_EXE_FORMAT (likely tried to load a "
          ++ thatBits targetArchX86_64 ++ "-bit DLL into this "
          ++ thisBits targetArchX86_64 ++ "-bit process)", none⟩, events)
    else if err.rawOsError = some ERROR_MOD_NOT_FOUND then
      (Except.error ⟨ErrorKind.notFound,
        "Unable to load " ++ path.display ++ ": NotFound", none⟩, events)
    else
      (Except.error err, events)
  else
    (Except.ok ⟨handle, h⟩, events)

/-- A Unix path as the crate sees it: its native bytes (what as_bytes
yields, possibly containing zero). -/
structure UnixPath where
  bytes : List Nat
  deriving DecidableEq, Repr

/-- The ambient Unix loader: the handle dlopen returns for a given
null-terminated buffer and flag, and the message dlopen stores in the
per-thread dlerror slot when it fails (none when it stores nothing). -/
structure UnixEnv where
  dlopenHandle : List Nat → Int → Addr
  dlopenErr : List Nat → Int → Option String

/-- Platform calls a Unix load can make, in order. -/
inductive UnixEvent where
  | dlerrorCall
  | dlopenCall (filename : List Nat) (flags : Int)
  deriving DecidableEq, Repr

/-- The constant RTLD_LAZY as the crate defines it (src/lib.rs line 365):
the POSIX lazy-binding flag, value 1. -/
def RTLD_LAZY : Int := 1

/-- Modelled from the spec: the POSIX resolve-immediately (immediate
binding) dlopen flag RTLD_NOW, value 2 on the platforms the crate targets.
The spec says load passes a resolve-immediately flag; the source passes
RTLD_LAZY. -/
def RTLD_NOW : Int := 2

/-- The helper dlerror_string_lossy (src/lib.rs lines 360-363) as a
function of the dlerror slot content it reads: the stored message, or the
empty string when the slot is null. -/
def dlerror_string_lossy (slot : Option String) : String :=
  match slot with
  | some s => s
  | none => ""

/-- The Unix branch of Library::load (src/lib.rs lines 30-47 and 69-73):
encode the path as a null-terminated byte string, clear the dlerror slot
(line 42), call dlopen with RTLD_LAZY, wrap a non-null handle, and on a
null handle surface dlerror_string_lossy as an error of kind Other.
slot0 is the per-thread dlerror slot content before the call; reading the
slot via dlerror clears it, and a failing dlopen overwrites it when it has
a message to store.  Returns the result and the ordered trace of loader
calls. -/
def Library.loadUnix (env : UnixEnv) (slot0 : Option String) (path : UnixPath) :
    Except IOError Library × List UnixEvent :=
  let filename := path.bytes ++ [0]
  let slot1 : Option String := none
  let handle := env.dlopenHandle filename RTLD_LAZY
  let slot2 : Option String :=
    if handle = 0 then
      match env.dlopenErr filename RTLD_LAZY with
      | some s => some s
      | none => slot1
    else slot1
  let events := [UnixEvent.dlerrorCall, UnixEvent.dlopenCall filename RTLD_LAZY]
  if h : handle = 0 then
    (Except.error ⟨ErrorKind.other, dlerror_string_lossy slot2, none⟩, events)
  else
    (Except.ok ⟨handle, h⟩, events)

/-- Result of a crate function that may abort via a Rust assert: either a
panic with its diagnostic message, or a normal value. -/
inductive SymResult (α : Type) where
  | panicked (msg : String)
  | ok (v : α)
  deriving DecidableEq, Repr

/-- The ambient symbol-resolution facility: the address GetProcAddress or
dlsym returns for a handle and a name buffer, and the address
GetProcAddress returns for a handle and an ordinal (Windows only). -/
structure SymEnv where
  lookup : Addr → List Char → Addr
  lookupOrdinal : Addr → Nat → Addr

/-- Platform calls a symbol resolution can make. -/
inductive SymEvent where
  | lookupCall (handle : Addr) (name : List Char)
  | lookupOrdinalCall (handle : Addr) (ordinal : Nat)
  deriving DecidableEq, Repr

/-- The null character. -/
def nul : Char := Char.ofNat 0

/-- The check name.ends_with of the null character (src/lib.rs line 164). -/
def endsWithNul (name : String) : Prop := name.data.getLast? = some nul

instance (name : String) : Decidable (endsWithNul name) :=
  inferInstanceAs (Decidable (name.data.getLast? = some nul))

/-- The check that name up to its last byte contains a null character
(src/lib.rs line 165). -/
def hasInteriorNul (name : String) : Prop := nul ∈ name.data.dropLast

instance (name : String) : Decidable (hasInteriorNul name) :=
  inferInstanceAs (Decidable (nul ∈ name.data.dropLast))

/-- The slice of name that drops its final byte (the trailing terminator),
as src/lib.rs line 141 takes. -/
def stripNul (name : String) : String := String.mk name.data.dropLast

/-- One character of the Rust Debug rendering of a string slice: quote,
backslash and the common control characters are escaped, printable
characters stand for themselves. -/
def escapeDebugChar (c : Char) : String :=
  if c = '"' then "\\\""
  else if c = '\\' then "\\\\"
  else if c = '\n' then "\\n"
  else if c = '\r' then "\\r"
  else if c = '\t' then "\\t"
  else if c = nul then "\\0"
  else String.mk [c]

/-- The Rust Debug rendering of a string slice (what the format specifier
with a question mark produces): the escaped characters wrapped in double
quotes. -/
def rustDebugStr (s : String) : String :=
  "\"" ++ String.join (s.data.map escapeDebugChar) ++ "\""

/-- Library::sym_opt (src/lib.rs lines 159-176), with the sizes of T and of
a void pointer as explicit parameters and the resolved T value modelled as
the raw address bits (the source reads the address back bit-for-bit).
Asserts run before the platform call; the trace lists the platform calls
made. -/
def Library.sym_opt (env : SymEnv) (self : Library) (tSize ptrSize : Nat) (name : String) :
    SymResult (Option Addr) × List SymEvent :=
  if tSize ≠ ptrSize then
    (SymResult.panicked "symbol result is not pointer sized!", [])
  else if ¬ endsWithNul name then
    (SymResult.panicked "symbol name must end with the null terminator", [])
  else if hasInteriorNul name then
    (SymResult.panicked "symbol name must not contain null bytes, except to terminate the string", [])
  else
    let result := env.lookup self.handle name.data
    if result = 0 then
      (SymResult.ok none, [SymEvent.lookupCall self.handle name.data])
    else
      (SymResult.ok (some result), [SymEvent.lookupCall self.handle name.data])

/-- Library::sym (src/lib.rs lines 138-143): sym_opt, with a missing symbol
turned into an InvalidInput error naming the symbol without its trailing
terminator, rendered as Rust Debug output. -/
def Library.sym (env : SymEnv) (self : Library) (tSize ptrSize : Nat) (name : String) :
    SymResult (Except IOError Addr) × List SymEvent :=
  match Library.sym_opt env self tSize ptrSize name with
  | (SymResult.panicked m, t) => (SymResult.panicked m, t)
  | (SymResult.ok none, t) =>
      (SymResult.ok (Except.error ⟨ErrorKind.invalidInput,
        "Symbol " ++ rustDebugStr (stripNul name) ++ " missing from library", none⟩), t)
  | (SymResult.ok (some a), t) => (SymResult.ok (Except.ok a), t)

/-- The Windows branch of Library::sym_opt_by_ordinal (src/lib.rs lines
212-231): assert the size, call GetProcAddress with the ordinal, and wrap a
non-null address. -/
def Library.sym_opt_by_ordinal_windows (env : SymEnv) (self : Library) (tSize ptrSize : Nat)
    (ordinal : Nat) : SymResult (Option Addr) × List SymEvent :=
  if tSize ≠ ptrSize then
    (SymResult.panicked "symbol result is not pointer sized!", [])
  else
    let func := env.lookupOrdinal self.handle ordinal
    if func = 0 then
      (SymResult.ok none, [SymEvent.lookupOrdinalCall self.handle ordinal])
    else
      (SymResult.ok (some func), [SymEvent.lookupOrdinalCall self.handle ordinal])

/-- The Unix branch of Library::sym_opt_by_ordinal (src/lib.rs lines
212-231): assert the size; func is the null pointer, the ordinal is
discarded, and no platform call is made. -/
def Library.sym_opt_by_ordinal_unix (self : Library) (tSize ptrSize : Nat)
    (ordinal : Nat) : SymResult (Option Addr) × List SymEvent :=
  if tSize ≠ ptrSize then
    (SymResult.panicked "symbol result is not pointer sized!", [])
  else
    (SymResult.ok none, [])

/-- The Windows branch of Library::sym_by_ordinal (src/lib.rs lines
192-196): sym_opt_by_ordinal, with a missing symbol turned into an
InvalidInput error naming the ordinal. -/
def Library.sym_by_ordinal_windows (env : SymEnv) (self : Library) (tSize ptrSize : Nat)
    (ordinal : Nat) : SymResult (Except IOError Addr) × List SymEvent :=
  match Library.sym_opt_by_ordinal_windows env self tSize ptrSize ordinal with
  | (SymResult.panicked m, t) => (SymResult.panicked m, t)
  | (SymResult.ok none, t) =>
      (SymResult.ok (Except.error ⟨ErrorKind.invalidInput,
        "Symbol @" ++ toString ordinal ++ " missing from library", none⟩), t)
  | (SymResult.ok (some a), t) => (SymResult.ok (Except.ok a), t)

/-- The Unix branch of Library::sym_by_ordinal (src/lib.rs lines 192-196). -/
def Library.sym_by_ordinal_unix (self : Library) (tSize ptrSize : Nat)
    (ordinal : Nat) : SymResult (Except IOError Addr) × List SymEvent :=
  match Library.sym_opt_by_ordinal_unix self tSize ptrSize ordinal with
  | (SymResult.panicked m, t) => (SymResult.panicked m, t)
  | (SymResult.ok none, t) =>
      (SymResult.ok (Except.error ⟨ErrorKind.invalidInput,
        "Symbol @" ++ toString ordinal ++ " missing from library", none⟩), t)
  | (SymResult.ok (some a), t) => (SymResult.ok (Except.ok a), t)

/-- Library::has_sym (src/lib.rs lines 243-247): sym_opt at result type a
void pointer (so the requested size is exactly the pointer size), reduced
to whether a value came back. -/
def Library.has_sym (env : SymEnv) (self : Library) (ptrSize : Nat) (name : String) :
    SymResult Bool × List SymEvent :=
  match Library.sym_opt env self ptrSize ptrSize name with
  | (SymResult.panicked m, t) => (SymResult.panicked m, t)
  | (SymResult.ok o, t) => (SymResult.ok o.isSome, t)

/-- The ambient Windows unload facility: the u32 FreeLibrary returns for a
handle, and the io Error last os error would report after a failed call. -/
structure CloseWindowsEnv where
  freeLibrary : Addr → Nat
  lastOsError : IOError

/-- The ambient Unix unload facility: the int dlclose returns for a handle,
and the message a failing dlclose leaves in the dlerror slot. -/
structure CloseUnixEnv where
  dlclose : Addr → Int
  dlcloseErr : Addr → Option String

/-- The Windows branch of the unload operation (src/lib.rs lines 340-344):
a zero return from FreeLibrary yields last os error, any other return
yields success. -/
def Library.close_windows (env : CloseWindowsEnv) (self : Library) : Except IOError Unit :=
  if env.freeLibrary self.handle = 0 then
    Except.error env.lastOsError
  else
    Except.ok ()

/-- The Unix branch of the unload operation (src/lib.rs lines 345-348): a
zero return from dlclose yields success, any other return yields an error
of kind Other carrying dlerror_string_lossy. -/
def Library.close_unix (env : CloseUnixEnv) (self : Library) : Except IOError Unit :=
  if env.dlclose self.handle = 0 then
    Except.ok ()
  else
    Except.error ⟨ErrorKind.other, dlerror_string_lossy (env.dlcloseErr self.handle), none⟩

/-- The view the OS applies to a pointer argument documented as a
null-terminated string (the filename arguments of LoadLibraryW and dlopen,
declared in src/lib.rs lines 354-371 as raw pointers): the code units
before the first zero. -/
def cstring (buf : List Nat) : List Nat := buf.takeWhile (fun u => u != 0)

/-- A concrete library handle for witnesses. -/
def lib1 : Library := ⟨1, Nat.one_ne_zero⟩

/-- A Windows loader state in which every load fails and the OS reports
ERROR_BAD_EXE_FORMAT. -/
def badExeEnv : WindowsEnv :=
  ⟨fun _ => 0, ⟨ErrorKind.other, "os says: bad exe format", some ERROR_BAD_EXE_FORMAT⟩⟩

/-- A Windows loader state in which every load fails and the OS reports
ERROR_MOD_NOT_FOUND. -/
def modNotFoundEnv : WindowsEnv :=
  ⟨fun _ => 0, ⟨ErrorKind.other, "os says: module not found", some ERROR_MOD_NOT_FOUND⟩⟩

/-- A Windows loader state in which every load fails with an unrelated OS
code. -/
def otherErrEnv : WindowsEnv :=
  ⟨fun _ => 0, ⟨ErrorKind.other, "os says: access denied", some 5⟩⟩

/-- A Windows loader state in which every load succeeds with handle 7. -/
def okWinEnv : WindowsEnv :=
  ⟨fun _ => 7, ⟨ErrorKind.other, "unused", some 0⟩⟩

/-- A concrete one-character Windows path. -/
def dPath : WinPath := ⟨[100], "d"⟩

/-- A concrete Windows path whose wide encoding has an interior zero. -/
def embNulWinPath : WinPath := ⟨[65, 0, 66], "A?B"⟩

/-- A Unix loader state in which every dlopen fails without storing any
dlerror message. -/
def silentFailUnixEnv : UnixEnv := ⟨fun _ _ => 0, fun _ _ => none⟩

/-- A Unix loader state in which every dlopen succeeds with handle 9. -/
def okUnixEnv : UnixEnv := ⟨fun _ _ => 9, fun _ _ => none⟩

/-- A concrete one-byte Unix path. -/
def bPath : UnixPath := ⟨[98]⟩

/-- A concrete Unix path whose byte encoding has an interior zero. -/
def embNulUnixPath : UnixPath := ⟨[65, 0, 66]⟩

/-- A symbol facility that resolves every name and ordinal to address 42. -/
def hitSymEnv : SymEnv := ⟨fun _ _ => 42, fun _ _ => 42⟩

/-- A symbol facility that resolves nothing. -/
def missSymEnv : SymEnv := ⟨fun _ _ => 0, fun _ _ => 0⟩

/-- A Windows unload facility whose FreeLibrary always reports failure. -/
def failFreeEnv : CloseWindowsEnv := ⟨fun _ => 0, ⟨ErrorKind.other, "os says: free failed", some 6⟩⟩

/-- A Windows unload facility whose FreeLibrary always reports success. -/
def okFreeEnv : CloseWindowsEnv := ⟨fun _ => 1, ⟨ErrorKind.other, "unused", some 0⟩⟩

/-- A Unix unload facility whose dlclose always reports success. -/
def okDlcloseEnv : CloseUnixEnv := ⟨fun _ => 0, fun _ => none⟩

/-- A Unix unload facility whose dlclose always fails, storing a message. -/
def failDlcloseEnv : CloseUnixEnv := ⟨fun _ => 3, fun _ => some "dlclose: library busy"⟩

/-- Two library handles with equal addresses are equal values. -/
theorem Library.eq_of_handle_eq {a b : Library} (h : a.handle = b.handle) : a = b := by
  cases a; cases b; cases h; rfl

/-- Every string contains itself. -/
theorem containsStr_self (s : String) : containsStr s s :=
  ⟨[], [], by simp⟩

/-- Containment survives extending the haystack on the right. -/
theorem containsStr_append_left {hay sub : String} (t : String) (h : containsStr hay sub) :
    containsStr (hay ++ t) sub := by
  obtain ⟨p, q, hpq⟩ := h
  exact ⟨p, q ++ t.data, by rw [String.data_append, ← hpq]; simp [List.append_assoc]⟩

/-- Containment survives extending the haystack on the left. -/
theorem containsStr_append_right {hay sub : String} (t : String) (h : containsStr hay sub) :
    containsStr (t ++ hay) sub := by
  obtain ⟨p, q, hpq⟩ := h
  exact ⟨t.data ++ p, q, by rw [String.data_append, ← hpq]; simp [List.append_assoc]⟩

/-- The Unix load always performs exactly one dlerror read followed by one
dlopen call on the null-terminated path bytes with flag RTLD_LAZY. -/
theorem loadUnix_events (env : UnixEnv) (slot0 : Option String) (path : UnixPath) :
    (Library.loadUnix env slot0 path).2 =
      [UnixEvent.dlerrorCall, UnixEvent.dlopenCall (path.bytes ++ [0]) RTLD_LAZY] := by
  dsimp only [Library.loadUnix]
  by_cases h0 : env.dlopenHandle (path.bytes ++ [0]) RTLD_LAZY = 0 <;> simp [h0]

/-- The Windows load always performs exactly one LoadLibraryW call on the
null-terminated path units. -/
theorem loadWindows_events (env : WindowsEnv) (arch : Bool) (path : WinPath) :
    (Library.loadWindows env arch path).2 = [WinEvent.loadLibraryWCall (path.units ++ [0])] := by
  dsimp only [Library.loadWindows]
  by_cases h0 : env.loadLibraryW (path.units ++ [0]) = 0
  · rw [dif_pos h0]
    split_ifs <;> rfl
  · rw [dif_neg h0]

/-- On a non-null handle the Windows load wraps exactly that handle. -/
theorem loadWindows_ok (env : WindowsEnv) (arch : Bool) (path : WinPath)
    (h0 : ¬ env.loadLibraryW (path.units ++ [0]) = 0) :
    (Library.loadWindows env arch path).1 =
      Except.ok ⟨env.loadLibraryW (path.units ++ [0]), h0⟩ := by
  dsimp only [Library.loadWindows]
  rw [dif_neg h0]

/-- On a null handle the Windows load returns some error. -/
theorem loadWindows_isError (env : WindowsEnv) (arch : Bool) (path : WinPath)
    (h0 : env.loadLibraryW (path.units ++ [0]) = 0) :
    ∃ e, (Library.loadWindows env arch path).1 = Except.error e := by
  dsimp only [Library.loadWindows]
  rw [dif_pos h0]
  split_ifs <;> exact ⟨_, rfl⟩

/-- On a non-null handle the Unix load wraps exactly that handle. -/
theorem loadUnix_ok (env : UnixEnv) (slot0 : Option String) (path : UnixPath)
    (h0 : ¬ env.dlopenHandle (path.bytes ++ [0]) RTLD_LAZY = 0) :
    (Library.loadUnix env slot0 path).1 =
      Except.ok ⟨env.dlopenHandle (path.bytes ++ [0]) RTLD_LAZY, h0⟩ := by
  dsimp only [Library.loadUnix]
  rw [dif_neg h0]

/-- On a null handle with a stored dlopen message, the Unix load surfaces
that message. -/
theorem loadUnix_err_some (env : UnixEnv) (slot0 : Option String) (path : UnixPath) (s : String)
    (h0 : env.dlopenHandle (path.bytes ++ [0]) RTLD_LAZY = 0)
    (hs : env.dlopenErr (path.bytes ++ [0]) RTLD_LAZY = some s) :
    (Library.loadUnix env slot0 path).1 = Except.error ⟨ErrorKind.other, s, none⟩ := by
  dsimp only [Library.loadUnix]
  simp [h0, hs, dlerror_string_lossy]

/-- On a null handle with no stored dlopen message, the Unix load surfaces
an empty message (thanks to the cleared slot). -/
theorem loadUnix_err_none (env : UnixEnv) (slot0 : Option String) (path : UnixPath)
    (h0 : env.dlopenHandle (path.bytes ++ [0]) RTLD_LAZY = 0)
    (hs : env.dlopenErr (path.bytes ++ [0]) RTLD_LAZY = none) :
    (Library.loadUnix env slot0 path).1 = Except.error ⟨ErrorKind.other, "", none⟩ := by
  dsimp only [Library.loadUnix]
  simp [h0, hs, dlerror_string_lossy]

/-- Under its preconditions, sym_opt with a missing symbol yields none
after exactly one platform lookup. -/
theorem sym_opt_missing (env : SymEnv) (self : Library) (tSize ptrSize : Nat) (name : String)
    (hsize : tSize = ptrSize) (hend : endsWithNul name) (hint : ¬ hasInteriorNul name)
    (hl : env.lookup self.handle name.data = 0) :
    Library.sym_opt env self tSize ptrSize name =
      (SymResult.ok none, [SymEvent.lookupCall self.handle name.data]) := by
  subst hsize
  simp [Library.sym_opt, hend, hint, hl]

/-- Under its preconditions, sym_opt with a found symbol yields exactly the
looked-up address after exactly one platform lookup. -/
theorem sym_opt_found (env : SymEnv) (self : Library) (tSize ptrSize : Nat) (name : String)
    (hsize : tSize = ptrSize) (hend : endsWithNul name) (hint : ¬ hasInteriorNul name)
    (hl : ¬ env.lookup self.handle name.data = 0) :
    Library.sym_opt env self tSize ptrSize name =
      (SymResult.ok (some (env.lookup self.handle name.data)),
       [SymEvent.lookupCall self.handle name.data]) := by
  subst hsize
  simp [Library.sym_opt, hend, hint, hl]

/-- Reading a buffer as a null-terminated string stops inside the part
before an appended terminator whenever that part already holds a zero. -/
theorem takeWhile_append_of_mem (l t : List Nat) (h : 0 ∈ l) :
    (l ++ t).takeWhile (fun u => u != 0) = l.takeWhile (fun u => u != 0) := by
  induction l with
  | nil => cases h
  | cons a l ih =>
    by_cases ha : a = 0
    · subst ha
      simp [List.takeWhile_cons]
    · have h0 : 0 ∈ l := by
        rcases List.mem_cons.mp h with h1 | h1
        · exact absurd h1.symm ha
        · exact h1
      simp [List.takeWhile_cons, ha, ih h0]

/-- A list holding a zero is strictly truncated by the null-terminated
reading. -/
theorem takeWhile_ne_self_of_mem (l : List Nat) (h : 0 ∈ l) :
    l.takeWhile (fun u => u != 0) ≠ l := by
  induction l with
  | nil => cases h
  | cons a l ih =>
    by_cases ha : a = 0
    · subst ha
      simp [List.takeWhile_cons]
    · have h0 : 0 ∈ l := by
        rcases List.mem_cons.mp h with h1 | h1
        · exact absurd h1.symm ha
        · exact h1
      intro heq
      have hpa : (a != 0) = true := by simp [ha]
      rw [List.takeWhile_cons, if_pos hpa] at heq
      injection heq with h1 h2
      exact ih h0 h2

set_option maxRecDepth 20000 in
/-- C1 counterexample: the spec computes the process bit-width from the
target pointer width, but the source computes it from whether the target
architecture is x86_64.  On an aarch64 Windows build (target architecture
not x86_64, target pointer width 64) the produced message announces a
32-bit process, and does not hold the 64-bit text the pointer-width rule
requires. -/
theorem loadWindows_bitness_counterexample :
    (Library.loadWindows badExeEnv false dPath).1 = Except.error
      ⟨ErrorKind.other,
       "Unable to load d: ERROR_BAD_EXE_FORMAT (likely tried to load a 64-bit DLL into this 32-bit process)",
       none⟩ ∧
    ¬ containsStr
      "Unable to load d: ERROR_BAD_EXE_FORMAT (likely tried to load a 64-bit DLL into this 32-bit process)"
      ("this " ++ bitsFromPointerWidth 64 ++ "-bit process") := by
  constructor
  · decide
  · decide

/-- C1 (amended): for every Windows loader state in which the loader
returns the null handle for the attempted path, load normalizes the error
as follows.  If the OS code is ERROR_BAD_EXE_FORMAT, the error has kind
Other and its message states that a DLL of the other bit-width was likely
loaded into this process, both bit-widths computed from the compile-time
test of whether the target architecture is x86_64 (not from runtime
introspection), and the message contains the attempted path.  If the code
is ERROR_MOD_NOT_FOUND, the error has kind NotFound and its message
contains the attempted path.  For any other code, the OS error is returned
verbatim, message and code preserved. -/
theorem loadWindows_error_normalization (env : WindowsEnv) (arch : Bool) (path : WinPath)
    (hnull : env.loadLibraryW (path.units ++ [0]) = 0) :
    (env.lastOsError.rawOsError = some ERROR_BAD_EXE_FORMAT →
       (Library.loadWindows env arch path).1 = Except.error
         ⟨ErrorKind.other,
          "Unable to load " ++ path.display ++ ": ERROR_BAD_EXE_FORMAT (likely tried to load a "
            ++ thatBits arch ++ "-bit DLL into this " ++ thisBits arch ++ "-bit process)",
          none⟩ ∧
       containsStr
         ("Unable to load " ++ path.display ++ ": ERROR_BAD_EXE_FORMAT (likely tried to load a "
            ++ thatBits arch ++ "-bit DLL into this " ++ thisBits arch ++ "-bit process)")
         path.display) ∧
    (env.lastOsError.rawOsError = some ERROR_MOD_NOT_FOUND →
       (Library.loadWindows env arch path).1 = Except.error
         ⟨ErrorKind.notFound, "Unable to load " ++ path.display ++ ": NotFound", none⟩ ∧
       containsStr ("Unable to load " ++ path.display ++ ": NotFound") path.display) ∧
    (env.lastOsError.rawOsError ≠ some ERROR_BAD_EXE_FORMAT →
     env.lastOsError.rawOsError ≠ some ERROR_MOD_NOT_FOUND →
       (Library.loadWindows env arch path).1 = Except.error env.lastOsError) := by
  refine ⟨?_, ?_, ?_⟩
  · intro hbad
    constructor
    · dsimp only [Library.loadWindows]
      rw [dif_pos hnull, if_pos hbad]
    · exact containsStr_append_left _ (containsStr_append_left _ (containsStr_append_left _
        (containsStr_append_left _ (containsStr_append_left _
          (containsStr_append_right _ (containsStr_self _))))))
  · intro hnf
    have hne : env.lastOsError.rawOsError ≠ some ERROR_BAD_EXE_FORMAT := by
      rw [hnf]
      decide
    constructor
    · dsimp only [Library.loadWindows]
      rw [dif_pos hnull, if_neg hne, if_pos hnf]
    · exact containsStr_append_left _ (containsStr_append_right _ (containsStr_self _))
  · intro h1 h2
    dsimp only [Library.loadWindows]
    rw [dif_pos hnull, if_neg h1, if_neg h2]

/-- C1 witness: the module-not-found normalization at a concrete loader
state and path. -/
theorem loadWindows_error_normalization_witness :
    (Library.loadWindows modNotFoundEnv true dPath).1 = Except.error
      ⟨ErrorKind.notFound, "Unable to load " ++ dPath.display ++ ": NotFound", none⟩ ∧
    containsStr ("Unable to load " ++ dPath.display ++ ": NotFound") dPath.display :=
  (loadWindows_error_normalization modNotFoundEnv true dPath rfl).2.1 rfl

/-- C2: for every handle and every null-terminated symbol name without
interior null bytes, resolved at a pointer-sized result type: when the
platform lookup returns null, sym yields an InvalidInput error whose
message names the symbol rendered without its trailing terminator, and
sym_opt yields none with no error; when the lookup returns a non-null
address, both yield exactly that address, bit-for-bit. -/
theorem sym_resolution (env : SymEnv) (self : Library) (tSize ptrSize : Nat) (name : String)
    (hsize : tSize = ptrSize) (hend : endsWithNul name) (hint : ¬ hasInteriorNul name) :
    (env.lookup self.handle name.data = 0 →
       (Library.sym_opt env self tSize ptrSize name).1 = SymResult.ok none ∧
       (Library.sym env self tSize ptrSize name).1 = SymResult.ok (Except.error
         ⟨ErrorKind.invalidInput,
          "Symbol " ++ rustDebugStr (stripNul name) ++ " missing from library", none⟩)) ∧
    (¬ env.lookup self.handle name.data = 0 →
       (Library.sym_opt env self tSize ptrSize name).1 =
         SymResult.ok (some (env.lookup self.handle name.data)) ∧
       (Library.sym env self tSize ptrSize name).1 =
         SymResult.ok (Except.ok (env.lookup self.handle name.data))) := by
  constructor
  · intro hl
    have h := sym_opt_missing env self tSize ptrSize name hsize hend hint hl
    constructor
    · rw [h]
    · simp [Library.sym, h]
  · intro hl
    have h := sym_opt_found env self tSize ptrSize name hsize hend hint hl
    constructor
    · rw [h]
    · simp [Library.sym, h]

/-- C2 witness: a missing symbol at a concrete facility, handle and name. -/
theorem sym_resolution_witness :
    (Library.sym_opt missSymEnv lib1 1 1 "puts\x00").1 = SymResult.ok none ∧
    (Library.sym missSymEnv lib1 1 1 "puts\x00").1 = SymResult.ok (Except.error
      ⟨ErrorKind.invalidInput,
       "Symbol " ++ rustDebugStr (stripNul "puts\x00") ++ " missing from library", none⟩) :=
  (sym_resolution missSymEnv lib1 1 1 "puts\x00" rfl (by decide) (by decide)).1 rfl

/-- C3: load succeeds exactly when the platform loader returns a non-null
handle, and then wraps exactly that handle; a null handle always yields an
error, on Unix even when the loader stored no message, in which case the
message is empty. -/
theorem load_success_iff_nonnull (wenv : WindowsEnv) (arch : Bool) (wpath : WinPath)
    (uenv : UnixEnv) (slot0 : Option String) (upath : UnixPath) :
    (∀ lib : Library, (Library.loadWindows wenv arch wpath).1 = Except.ok lib ↔
       wenv.loadLibraryW (wpath.units ++ [0]) ≠ 0 ∧
       lib.handle = wenv.loadLibraryW (wpath.units ++ [0])) ∧
    (wenv.loadLibraryW (wpath.units ++ [0]) = 0 →
       ∃ e, (Library.loadWindows wenv arch wpath).1 = Except.error e) ∧
    (∀ lib : Library, (Library.loadUnix uenv slot0 upath).1 = Except.ok lib ↔
       uenv.dlopenHandle (upath.bytes ++ [0]) RTLD_LAZY ≠ 0 ∧
       lib.handle = uenv.dlopenHandle (upath.bytes ++ [0]) RTLD_LAZY) ∧
    (uenv.dlopenHandle (upath.bytes ++ [0]) RTLD_LAZY = 0 →
     uenv.dlopenErr (upath.bytes ++ [0]) RTLD_LAZY = none →
       (Library.loadUnix uenv slot0 upath).1 = Except.error ⟨ErrorKind.other, "", none⟩) := by
  refine ⟨?_, ?_, ?_, ?_⟩
  · intro lib
    constructor
    · intro hok
      by_cases h0 : wenv.loadLibraryW (wpath.units ++ [0]) = 0
      · obtain ⟨e, he⟩ := loadWindows_isError wenv arch wpath h0
        rw [he] at hok
        cases hok
      · have hres := loadWindows_ok wenv arch wpath h0
        have heq : Except.ok (⟨wenv.loadLibraryW (wpath.units ++ [0]), h0⟩ : Library) =
            Except.ok lib := hres.symm.trans hok
        injection heq with hlib
        exact ⟨h0, by rw [← hlib]⟩
    · rintro ⟨h0, hh⟩
      rw [loadWindows_ok wenv arch wpath h0]
      exact congrArg Except.ok (Library.eq_of_handle_eq hh.symm)
  · intro h0
    exact loadWindows_isError wenv arch wpath h0
  · intro lib
    constructor
    · intro hok
      by_cases h0 : uenv.dlopenHandle (upath.bytes ++ [0]) RTLD_LAZY = 0
      · rcases herr : uenv.dlopenErr (upath.bytes ++ [0]) RTLD_LAZY with _ | s
        · rw [loadUnix_err_none uenv slot0 upath h0 herr] at hok
          cases hok
        · rw [loadUnix_err_some uenv slot0 upath s h0 herr] at hok
          cases hok
      · have hres := loadUnix_ok uenv slot0 upath h0
        have heq : Except.ok (⟨uenv.dlopenHandle (upath.bytes ++ [0]) RTLD_LAZY, h0⟩ : Library) =
            Except.ok lib := hres.symm.trans hok
        injection heq with hlib
        exact ⟨h0, by rw [← hlib]⟩
    · rintro ⟨h0, hh⟩
      rw [loadUnix_ok uenv slot0 upath h0]
      exact congrArg Except.ok (Library.eq_of_handle_eq hh.symm)
  · intro h0 herr
    exact loadUnix_err_none uenv slot0 upath h0 herr

/-- C3 witness: a succeeding Windows load wrapping handle 7, and a failing
Unix load whose loader stored no message, surfacing an empty one. -/
theorem load_success_iff_nonnull_witness :
    (Library.loadWindows okWinEnv true dPath).1 = Except.ok ⟨7, by decide⟩ ∧
    (Library.loadUnix silentFailUnixEnv (some "stale") bPath).1 =
      Except.error ⟨ErrorKind.other, "", none⟩ :=
  ⟨((load_success_iff_nonnull okWinEnv true dPath silentFailUnixEnv (some "stale") bPath).1
      ⟨7, by decide⟩).mpr ⟨by decide, rfl⟩,
   (load_success_iff_nonnull okWinEnv true dPath silentFailUnixEnv (some "stale") bPath).2.2.2
     rfl rfl⟩

/-- C4 counterexample: at a concrete loader state and path, the dlopen
call recorded in the load trace carries the flag RTLD_LAZY (lazy binding,
value 1), which is not the resolve-immediately flag RTLD_NOW that the
claim names. -/
theorem loadUnix_flag_counterexample :
    (Library.loadUnix silentFailUnixEnv (some "stale") bPath).2 =
      [UnixEvent.dlerrorCall, UnixEvent.dlopenCall [98, 0] RTLD_LAZY] ∧
    RTLD_LAZY ≠ RTLD_NOW := by
  constructor
  · decide
  · decide

/-- C4 (amended): on Unix, load invokes dlopen with the lazy-binding flag
RTLD_LAZY (deferred symbol resolution, not immediate), after first reading
and thereby clearing the per-thread dlerror error slot, so that the whole
outcome is independent of whatever stale error state the slot held before
the call. -/
theorem loadUnix_lazy_after_clear (env : UnixEnv) (slotA slotB : Option String)
    (path : UnixPath) :
    (Library.loadUnix env slotA path).2 =
      [UnixEvent.dlerrorCall, UnixEvent.dlopenCall (path.bytes ++ [0]) RTLD_LAZY] ∧
    Library.loadUnix env slotA path = Library.loadUnix env slotB path :=
  ⟨loadUnix_events env slotA path, rfl⟩

/-- C5: every caller-side precondition violation (a result type that is
not pointer sized, or for name-based resolution a name without a trailing
terminator or with an interior null) makes the resolution functions abort
with a panic diagnostic, with an empty platform-call trace: the abort
happens before any call into the platform. -/
theorem resolution_precondition_panics (env : SymEnv) (self : Library)
    (tSize ptrSize : Nat) (name : String) (ordinal : Nat)
    (h : tSize ≠ ptrSize ∨ ¬ endsWithNul name ∨ hasInteriorNul name) :
    (∃ m, Library.sym_opt env self tSize ptrSize name = (SymResult.panicked m, [])) ∧
    (∃ m, Library.sym env self tSize ptrSize name = (SymResult.panicked m, [])) ∧
    (tSize ≠ ptrSize →
      (∃ m, Library.sym_opt_by_ordinal_windows env self tSize ptrSize ordinal =
         (SymResult.panicked m, [])) ∧
      (∃ m, Library.sym_by_ordinal_windows env self tSize ptrSize ordinal =
         (SymResult.panicked m, [])) ∧
      (∃ m, Library.sym_opt_by_ordinal_unix self tSize ptrSize ordinal =
         (SymResult.panicked m, [])) ∧
      (∃ m, Library.sym_by_ordinal_unix self tSize ptrSize ordinal =
         (SymResult.panicked m, []))) := by
  have hso : ∃ m, Library.sym_opt env self tSize ptrSize name = (SymResult.panicked m, []) := by
    by_cases hs : tSize = ptrSize
    · rcases h with h | h | h
      · exact absurd hs h
      · exact ⟨"symbol name must end with the null terminator", by
          subst hs
          simp [Library.sym_opt, h]⟩
      · by_cases he : endsWithNul name
        · exact ⟨"symbol name must not contain null bytes, except to terminate the string", by
            subst hs
            simp [Library.sym_opt, he, h]⟩
        · exact ⟨"symbol name must end with the null terminator", by
            subst hs
            simp [Library.sym_opt, he]⟩
    · exact ⟨"symbol result is not pointer sized!", by simp [Library.sym_opt, hs]⟩
  obtain ⟨m, hm⟩ := hso
  refine ⟨⟨m, hm⟩, ⟨m, ?_⟩, ?_⟩
  · simp [Library.sym, hm]
  · intro hs
    refine ⟨⟨"symbol result is not pointer sized!", ?_⟩,
      ⟨"symbol result is not pointer sized!", ?_⟩,
      ⟨"symbol result is not pointer sized!", ?_⟩,
      ⟨"symbol result is not pointer sized!", ?_⟩⟩
    · simp [Library.sym_opt_by_ordinal_windows, hs]
    · simp [Library.sym_by_ordinal_windows, Library.sym_opt_by_ordinal_windows, hs]
    · simp [Library.sym_opt_by_ordinal_unix, hs]
    · simp [Library.sym_by_ordinal_unix, Library.sym_opt_by_ordinal_unix, hs]

/-- C5 witness: a 4-byte result type requested against an 8-byte pointer
size panics in name resolution and in ordinal resolution, with no platform
call made. -/
theorem resolution_precondition_panics_witness :
    (∃ m, Library.sym_opt hitSymEnv lib1 4 8 "f\x00" = (SymResult.panicked m, [])) ∧
    (∃ m, Library.sym_by_ordinal_unix lib1 4 8 3 = (SymResult.panicked m, [])) :=
  ⟨(resolution_precondition_panics hitSymEnv lib1 4 8 "f\x00" 3 (Or.inl (by decide))).1,
   ((resolution_precondition_panics hitSymEnv lib1 4 8 "f\x00" 3 (Or.inl (by decide))).2.2
     (by decide)).2.2.2⟩

/-- C6: on Unix, where ordinal-based resolution is unsupported, for every
handle, pointer-sized result type and u16 ordinal, the optional variant
yields none having made no platform call, and the required variant fails
with an InvalidInput error whose message names the ordinal. -/
theorem ordinal_resolution_unsupported_unix (self : Library) (tSize ptrSize : Nat)
    (ordinal : Nat) (hsize : tSize = ptrSize) (hord : ordinal < 65536) :
    Library.sym_opt_by_ordinal_unix self tSize ptrSize ordinal = (SymResult.ok none, []) ∧
    (Library.sym_by_ordinal_unix self tSize ptrSize ordinal).1 = SymResult.ok (Except.error
      ⟨ErrorKind.invalidInput, "Symbol @" ++ toString ordinal ++ " missing from library", none⟩) ∧
    containsStr ("Symbol @" ++ toString ordinal ++ " missing from library") (toString ordinal) := by
  subst hsize
  have h1 : Library.sym_opt_by_ordinal_unix self tSize tSize ordinal =
      (SymResult.ok none, []) := by
    simp [Library.sym_opt_by_ordinal_unix]
  refine ⟨h1, ?_, ?_⟩
  · simp [Library.sym_by_ordinal_unix, h1]
  · exact containsStr_append_left _ (containsStr_append_right _ (containsStr_self _))

/-- C6 witness: ordinal 7 at a concrete handle. -/
theorem ordinal_resolution_unsupported_unix_witness :
    Library.sym_opt_by_ordinal_unix lib1 8 8 7 = (SymResult.ok none, []) ∧
    (Library.sym_by_ordinal_unix lib1 8 8 7).1 = SymResult.ok (Except.error
      ⟨ErrorKind.invalidInput, "Symbol @" ++ toString 7 ++ " missing from library", none⟩) ∧
    containsStr ("Symbol @" ++ toString 7 ++ " missing from library") (toString 7) :=
  ordinal_resolution_unsupported_unix lib1 8 8 7 rfl (by decide)

/-- C7: for valid ASCII null-terminated names without interior
terminators, resolution is idempotent: two resolutions of the same name
from the same handle, through sym_opt or sym, yield addresses that compare
equal. -/
theorem sym_resolution_idempotent (env : SymEnv) (self : Library) (ptrSize : Nat)
    (name : String) (hascii : ∀ c ∈ name.data, c.toNat < 128)
    (hend : endsWithNul name) (hint : ¬ hasInteriorNul name) :
    (∀ a1 a2, (Library.sym_opt env self ptrSize ptrSize name).1 = SymResult.ok (some a1) →
       (Library.sym_opt env self ptrSize ptrSize name).1 = SymResult.ok (some a2) → a1 = a2) ∧
    (∀ a1 a2, (Library.sym env self ptrSize ptrSize name).1 = SymResult.ok (Except.ok a1) →
       (Library.sym env self ptrSize ptrSize name).1 = SymResult.ok (Except.ok a2) → a1 = a2) ∧
    (∀ a1 a2, (Library.sym_opt env self ptrSize ptrSize name).1 = SymResult.ok (some a1) →
       (Library.sym env self ptrSize ptrSize name).1 = SymResult.ok (Except.ok a2) → a1 = a2) := by
  have hopt : ∀ a, (Library.sym_opt env self ptrSize ptrSize name).1 = SymResult.ok (some a) →
      a = env.lookup self.handle name.data := by
    intro a ha
    by_cases hl : env.lookup self.handle name.data = 0
    · rw [sym_opt_missing env self ptrSize ptrSize name rfl hend hint hl] at ha
      simp at ha
    · rw [sym_opt_found env self ptrSize ptrSize name rfl hend hint hl] at ha
      simp at ha
      first
      | exact ha
      | exact ha.symm
  have hsym : ∀ a, (Library.sym env self ptrSize ptrSize name).1 = SymResult.ok (Except.ok a) →
      a = env.lookup self.handle name.data := by
    intro a ha
    by_cases hl : env.lookup self.handle name.data = 0
    · have h := sym_opt_missing env self ptrSize ptrSize name rfl hend hint hl
      rw [show Library.sym env self ptrSize ptrSize name = (SymResult.ok (Except.error
        ⟨ErrorKind.invalidInput,
         "Symbol " ++ rustDebugStr (stripNul name) ++ " missing from library", none⟩),
        [SymEvent.lookupCall self.handle name.data]) from by simp [Library.sym, h]] at ha
      simp at ha
    · have h := sym_opt_found env self ptrSize ptrSize name rfl hend hint hl
      rw [show Library.sym env self ptrSize ptrSize name = (SymResult.ok (Except.ok
        (env.lookup self.handle name.data)),
        [SymEvent.lookupCall self.handle name.data]) from by simp [Library.sym, h]] at ha
      simp at ha
      first
      | exact ha
      | exact ha.symm
  refine ⟨?_, ?_, ?_⟩
  · intro a1 a2 h1 h2
    rw [hopt a1 h1, hopt a2 h2]
  · intro a1 a2 h1 h2
    rw [hsym a1 h1, hsym a2 h2]
  · intro a1 a2 h1 h2
    rw [hopt a1 h1, hsym a2 h2]

/-- C7 witness: a facility resolving everything to 42 resolves the same
concrete name twice to equal addresses. -/
theorem sym_resolution_idempotent_witness :
    (Library.sym_opt hitSymEnv lib1 8 8 "puts\x00").1 = SymResult.ok (some 42) ∧ (42 : Nat) = 42 :=
  ⟨by decide,
   (sym_resolution_idempotent hitSymEnv lib1 8 "puts\x00" (by decide) (by decide) (by decide)).1
     42 42 (by decide) (by decide)⟩

/-- C8: unload maps platform returns as the platforms define them: on
Windows a zero FreeLibrary return yields the last OS error and a non-zero
return yields success; on Unix a zero dlclose return yields success and a
non-zero return yields an error whose message is taken from the dlerror
facility. -/
theorem close_return_mapping (wenv : CloseWindowsEnv) (uenv : CloseUnixEnv) (self : Library) :
    (wenv.freeLibrary self.handle = 0 →
       Library.close_windows wenv self = Except.error wenv.lastOsError) ∧
    (wenv.freeLibrary self.handle ≠ 0 →
       Library.close_windows wenv self = Except.ok ()) ∧
    (uenv.dlclose self.handle = 0 →
       Library.close_unix uenv self = Except.ok ()) ∧
    (uenv.dlclose self.handle ≠ 0 →
       Library.close_unix uenv self =
         Except.error ⟨ErrorKind.other, dlerror_string_lossy (uenv.dlcloseErr self.handle),
           none⟩) := by
  refine ⟨?_, ?_, ?_, ?_⟩ <;> intro h <;>
    simp [Library.close_windows, Library.close_unix, h]

/-- C8 witness: all four mappings at concrete unload facilities. -/
theorem close_return_mapping_witness :
    Library.close_windows failFreeEnv lib1 = Except.error failFreeEnv.lastOsError ∧
    Library.close_windows okFreeEnv lib1 = Except.ok () ∧
    Library.close_unix okDlcloseEnv lib1 = Except.ok () ∧
    Library.close_unix failDlcloseEnv lib1 =
      Except.error ⟨ErrorKind.other,
        dlerror_string_lossy (failDlcloseEnv.dlcloseErr lib1.handle), none⟩ :=
  ⟨(close_return_mapping failFreeEnv okDlcloseEnv lib1).1 rfl,
   (close_return_mapping okFreeEnv okDlcloseEnv lib1).2.1 (by decide),
   (close_return_mapping okFreeEnv okDlcloseEnv lib1).2.2.1 rfl,
   (close_return_mapping okFreeEnv failDlcloseEnv lib1).2.2.2 (by decide)⟩

/-- C9: has_sym answers true exactly when sym_opt at the pointer-sized
placeholder type yields a value, false exactly when it yields none, and
makes exactly the same platform calls, so it has no other side effect. -/
theorem has_sym_equiv_sym_opt (env : SymEnv) (self : Library) (ptrSize : Nat) (name : String)
    (hend : endsWithNul name) (hint : ¬ hasInteriorNul name) :
    ((Library.has_sym env self ptrSize name).1 = SymResult.ok true ↔
       ∃ a, (Library.sym_opt env self ptrSize ptrSize name).1 = SymResult.ok (some a)) ∧
    ((Library.has_sym env self ptrSize name).1 = SymResult.ok false ↔
       (Library.sym_opt env self ptrSize ptrSize name).1 = SymResult.ok none) ∧
    (Library.has_sym env self ptrSize name).2 =
      (Library.sym_opt env self ptrSize ptrSize name).2 := by
  rcases hso : Library.sym_opt env self ptrSize ptrSize name with ⟨r, t⟩
  rcases r with m | o
  · simp [Library.has_sym, hso]
  · rcases o with _ | a
    · simp [Library.has_sym, hso]
    · simp [Library.has_sym, hso]

/-- C9 witness: a facility that resolves everything makes has_sym answer
true, with the same single-lookup trace as sym_opt. -/
theorem has_sym_equiv_sym_opt_witness :
    ((Library.has_sym hitSymEnv lib1 8 "puts\x00").1 = SymResult.ok true ↔
       ∃ a, (Library.sym_opt hitSymEnv lib1 8 8 "puts\x00").1 = SymResult.ok (some a)) ∧
    (Library.has_sym hitSymEnv lib1 8 "puts\x00").2 =
      (Library.sym_opt hitSymEnv lib1 8 8 "puts\x00").2 :=
  ⟨(has_sym_equiv_sym_opt hitSymEnv lib1 8 "puts\x00" (by decide) (by decide)).1,
   (has_sym_equiv_sym_opt hitSymEnv lib1 8 "puts\x00" (by decide) (by decide)).2.2⟩

/-- C10: load performs no validation of embedded nulls: the trace shows
the loader call is always made, passing the full null-terminated buffer,
and the null-terminated reading the OS applies to that buffer is exactly
the prefix of the path encoding before its first zero, a strict
truncation whenever the encoding holds an interior zero. -/
theorem load_embedded_null_truncates (uenv : UnixEnv) (slot0 : Option String) (upath : UnixPath)
    (wenv : WindowsEnv) (arch : Bool) (wpath : WinPath)
    (hu : 0 ∈ upath.bytes) (hw : 0 ∈ wpath.units) :
    (Library.loadUnix uenv slot0 upath).2 =
      [UnixEvent.dlerrorCall, UnixEvent.dlopenCall (upath.bytes ++ [0]) RTLD_LAZY] ∧
    (Library.loadWindows wenv arch wpath).2 = [WinEvent.loadLibraryWCall (wpath.units ++ [0])] ∧
    cstring (upath.bytes ++ [0]) = upath.bytes.takeWhile (fun u => u != 0) ∧
    cstring (upath.bytes ++ [0]) ≠ upath.bytes ∧
    cstring (wpath.units ++ [0]) = wpath.units.takeWhile (fun u => u != 0) ∧
    cstring (wpath.units ++ [0]) ≠ wpath.units := by
  have hu1 := takeWhile_append_of_mem upath.bytes [0] hu
  have hw1 := takeWhile_append_of_mem wpath.units [0] hw
  refine ⟨loadUnix_events uenv slot0 upath, loadWindows_events wenv arch wpath, ?_, ?_, ?_, ?_⟩
  · simp only [cstring]
    exact hu1
  · simp only [cstring]
    rw [hu1]
    exact takeWhile_ne_self_of_mem upath.bytes hu
  · simp only [cstring]
    exact hw1
  · simp only [cstring]
    rw [hw1]
    exact takeWhile_ne_self_of_mem wpath.units hw

/-- C10 witness: a path whose bytes hold an interior zero is passed whole
to the loader, and its null-terminated reading strictly truncates it. -/
theorem load_embedded_null_truncates_witness :
    (Library.loadUnix silentFailUnixEnv none embNulUnixPath).2 =
      [UnixEvent.dlerrorCall, UnixEvent.dlopenCall (embNulUnixPath.bytes ++ [0]) RTLD_LAZY] ∧
    cstring (embNulUnixPath.bytes ++ [0]) ≠ embNulUnixPath.bytes :=
  ⟨(load_embedded_null_truncates silentFailUnixEnv none embNulUnixPath otherErrEnv true
      embNulWinPath (by decide) (by decide)).1,
   (load_embedded_null_truncates silentFailUnixEnv none embNulUnixPath otherErrEnv true
      embNulWinPath (by decide) (by decide)).2.2.2.1⟩
